import Mathlib

/-!
The class sf::Event

A shallow embedding of `include/SFML/Window/Event.hpp`: the event records, the
`Type` enumeration, the `std::variant` storage `VariantType`, the compile-time
membership predicate `isEventType`, and the four accessors of `sf::Event`.

Conventions of the embedding:

* `unsigned int` / `std::uint32_t` fields are `Nat`, signed fields are `Int`; the
  accessors only copy fields, no arithmetic is performed on them.
* `float` fields are carried as their bit pattern (`CFloat`); equality of records
  is equality of representation.
* A template parameter `T` is a code `StructId` of one of the structs declared in
  `sf::Event`; `T.Record` is the struct itself.
* `if constexpr (isEventType<T>) ... else static_assert(...)` makes an
  instantiation with a non-member ill-formed, so the templates take
  `T : EventSubtype`, a code together with the proof that `isEventType` holds.
* A template argument of any type, also one declared outside `sf::Event`, is a
  `TypeArg`; `instantiate` is the guard itself, which yields the instance at an
  accepted argument and the failed `static_assert` at any other.
-/

namespace sf

/-- C++ `float`, carried as its 32-bit pattern. The event code only stores and
copies such values. -/
structure CFloat where
  bits : Nat
  deriving DecidableEq, Repr

/-- Modelled from the spec: `Vector2u` (SFML/System/Vector2.hpp, absent) is a
2D unsigned integer vector. -/
structure Vector2u where
  x : Nat
  y : Nat
  deriving DecidableEq, Repr

/-- Modelled from the spec: `Vector2i` (SFML/System/Vector2.hpp, absent) is an
integer 2D position. -/
structure Vector2i where
  x : Int
  y : Int
  deriving DecidableEq, Repr

/-- Modelled from the spec: `Vector3f` (declared outside this excerpt) is a
3D float vector. -/
structure Vector3f where
  x : CFloat
  y : CFloat
  z : CFloat
  deriving DecidableEq, Repr

/-- Modelled from the spec: `Keyboard::Key` (SFML/Window/Keyboard.hpp, absent)
is the logical key code; an enumeration value is carried as its underlying
integer. -/
structure Keyboard.Key where
  val : Int
  deriving DecidableEq, Repr

/-- Modelled from the spec: `Keyboard::Scancode` (SFML/Window/Keyboard.hpp,
absent) is the physical scan code, carried as its underlying integer. -/
structure Keyboard.Scancode where
  val : Int
  deriving DecidableEq, Repr

/-- Modelled from the spec: `Mouse::Wheel` (SFML/Window/Mouse.hpp, absent) is
the wheel identifier, carried as its underlying integer. -/
structure Mouse.Wheel where
  val : Int
  deriving DecidableEq, Repr

/-- Modelled from the spec: `Mouse::Button` (SFML/Window/Mouse.hpp, absent) is
the button identifier, carried as its underlying integer. -/
structure Mouse.Button where
  val : Int
  deriving DecidableEq, Repr

/-- Modelled from the spec: `Joystick::Axis` (SFML/Window/Joystick.hpp, absent)
is the axis identifier, carried as its underlying integer. -/
structure Joystick.Axis where
  val : Int
  deriving DecidableEq, Repr

/-- Modelled from the spec: `Sensor::Type` (SFML/Window/Sensor.hpp, absent) is
the sensor type, carried as its underlying integer. -/
structure Sensor.Type_ where
  val : Int
  deriving DecidableEq, Repr

namespace Event

/-! ## The event records (Event.hpp, lines 55-242) -/

/-- Empty event. -/
structure Empty where
  deriving DecidableEq, Repr

/-- Closed event. -/
structure Closed where
  deriving DecidableEq, Repr

/-- Resized event. -/
structure Resized where
  size : Vector2u
  deriving DecidableEq, Repr

/-- Lost focus event. -/
structure LostFocus where
  deriving DecidableEq, Repr

/-- Gained focus event. -/
structure GainedFocus where
  deriving DecidableEq, Repr

/-- Text event. -/
structure TextEntered where
  unicode : Nat
  deriving DecidableEq, Repr

/-- KeyChanged events: the fields shared by `KeyPressed` and `KeyReleased`. -/
structure KeyChanged where
  code : Keyboard.Key
  scancode : Keyboard.Scancode
  alt : Bool
  control : Bool
  shift : Bool
  system : Bool
  deriving DecidableEq, Repr

/-- Record `struct KeyPressed : KeyChanged`. -/
structure KeyPressed extends KeyChanged where
  deriving DecidableEq, Repr

/-- Record `struct KeyReleased : KeyChanged`. -/
structure KeyReleased extends KeyChanged where
  deriving DecidableEq, Repr

/-- Mouse wheel scrolled event. -/
structure MouseWheelScrolled where
  wheel : Mouse.Wheel
  delta : CFloat
  position : Vector2i
  deriving DecidableEq, Repr

/-- Mouse button changed events: the fields shared by the two button records. -/
structure MouseButtonChanged where
  button : Mouse.Button
  position : Vector2i
  deriving DecidableEq, Repr

/-- Record `struct MouseButtonPressed : MouseButtonChanged`. -/
structure MouseButtonPressed extends MouseButtonChanged where
  deriving DecidableEq, Repr

/-- Record `struct MouseButtonReleased : MouseButtonChanged`. -/
structure MouseButtonReleased extends MouseButtonChanged where
  deriving DecidableEq, Repr

/-- Mouse move event. -/
structure MouseMoved where
  position : Vector2i
  deriving DecidableEq, Repr

/-- Mouse entered event. -/
structure MouseEntered where
  deriving DecidableEq, Repr

/-- Mouse left event. -/
structure MouseLeft where
  deriving DecidableEq, Repr

/-- Joystick button events: the fields shared by the two button records. -/
structure JoystickButtonChanged where
  joystickId : Nat
  button : Nat
  deriving DecidableEq, Repr

/-- Record `struct JoystickButtonPressed : JoystickButtonChanged`. -/
structure JoystickButtonPressed extends JoystickButtonChanged where
  deriving DecidableEq, Repr

/-- Record `struct JoystickButtonReleased : JoystickButtonChanged`. -/
structure JoystickButtonReleased extends JoystickButtonChanged where
  deriving DecidableEq, Repr

/-- Joystick axis move event. -/
structure JoystickMoved where
  joystickId : Nat
  axis : Joystick.Axis
  position : CFloat
  deriving DecidableEq, Repr

/-- Joystick connection events: the field shared by the two connection records. -/
structure JoystickChanged where
  joystickId : Nat
  deriving DecidableEq, Repr

/-- Record `struct JoystickConnected : JoystickChanged`. -/
structure JoystickConnected extends JoystickChanged where
  deriving DecidableEq, Repr

/-- Record `struct JoystickDisconnected : JoystickChanged`. -/
structure JoystickDisconnected extends JoystickChanged where
  deriving DecidableEq, Repr

/-- Touch events: the fields shared by the three touch records. -/
structure TouchChanged where
  finger : Nat
  position : Vector2i
  deriving DecidableEq, Repr

/-- Record `struct TouchBegan : TouchChanged`. -/
structure TouchBegan extends TouchChanged where
  deriving DecidableEq, Repr

/-- Record `struct TouchMoved : TouchChanged`. -/
structure TouchMoved extends TouchChanged where
  deriving DecidableEq, Repr

/-- Record `struct TouchEnded : TouchChanged`. -/
structure TouchEnded extends TouchChanged where
  deriving DecidableEq, Repr

/-- Sensor event. -/
structure SensorChanged where
  type : Sensor.Type_
  value : Vector3f
  deriving DecidableEq, Repr

/-! ## Codes for the template parameter `T` -/

/-- One code per struct declared in `sf::Event` (lines 55-242, in declaration
order): the 23 event records and the 5 shared base records. A template
parameter `T` of the accessors ranges over these codes. -/
inductive StructId where
  | Empty
  | Closed
  | Resized
  | LostFocus
  | GainedFocus
  | TextEntered
  | KeyChanged
  | KeyPressed
  | KeyReleased
  | MouseWheelScrolled
  | MouseButtonChanged
  | MouseButtonPressed
  | MouseButtonReleased
  | MouseMoved
  | MouseEntered
  | MouseLeft
  | JoystickButtonChanged
  | JoystickButtonPressed
  | JoystickButtonReleased
  | JoystickMoved
  | JoystickChanged
  | JoystickConnected
  | JoystickDisconnected
  | TouchChanged
  | TouchBegan
  | TouchMoved
  | TouchEnded
  | SensorChanged
  deriving DecidableEq, Repr

/-- The struct a code stands for. -/
abbrev StructId.Record : StructId → Type
  | .Empty => Event.Empty
  | .Closed => Event.Closed
  | .Resized => Event.Resized
  | .LostFocus => Event.LostFocus
  | .GainedFocus => Event.GainedFocus
  | .TextEntered => Event.TextEntered
  | .KeyChanged => Event.KeyChanged
  | .KeyPressed => Event.KeyPressed
  | .KeyReleased => Event.KeyReleased
  | .MouseWheelScrolled => Event.MouseWheelScrolled
  | .MouseButtonChanged => Event.MouseButtonChanged
  | .MouseButtonPressed => Event.MouseButtonPressed
  | .MouseButtonReleased => Event.MouseButtonReleased
  | .MouseMoved => Event.MouseMoved
  | .MouseEntered => Event.MouseEntered
  | .MouseLeft => Event.MouseLeft
  | .JoystickButtonChanged => Event.JoystickButtonChanged
  | .JoystickButtonPressed => Event.JoystickButtonPressed
  | .JoystickButtonReleased => Event.JoystickButtonReleased
  | .JoystickMoved => Event.JoystickMoved
  | .JoystickChanged => Event.JoystickChanged
  | .JoystickConnected => Event.JoystickConnected
  | .JoystickDisconnected => Event.JoystickDisconnected
  | .TouchChanged => Event.TouchChanged
  | .TouchBegan => Event.TouchBegan
  | .TouchMoved => Event.TouchMoved
  | .TouchEnded => Event.TouchEnded
  | .SensorChanged => Event.SensorChanged

/-- The name of a struct, as written in its declaration. -/
def StructId.name : StructId → String
  | .Empty => "Empty"
  | .Closed => "Closed"
  | .Resized => "Resized"
  | .LostFocus => "LostFocus"
  | .GainedFocus => "GainedFocus"
  | .TextEntered => "TextEntered"
  | .KeyChanged => "KeyChanged"
  | .KeyPressed => "KeyPressed"
  | .KeyReleased => "KeyReleased"
  | .MouseWheelScrolled => "MouseWheelScrolled"
  | .MouseButtonChanged => "MouseButtonChanged"
  | .MouseButtonPressed => "MouseButtonPressed"
  | .MouseButtonReleased => "MouseButtonReleased"
  | .MouseMoved => "MouseMoved"
  | .MouseEntered => "MouseEntered"
  | .MouseLeft => "MouseLeft"
  | .JoystickButtonChanged => "JoystickButtonChanged"
  | .JoystickButtonPressed => "JoystickButtonPressed"
  | .JoystickButtonReleased => "JoystickButtonReleased"
  | .JoystickMoved => "JoystickMoved"
  | .JoystickChanged => "JoystickChanged"
  | .JoystickConnected => "JoystickConnected"
  | .JoystickDisconnected => "JoystickDisconnected"
  | .TouchChanged => "TouchChanged"
  | .TouchBegan => "TouchBegan"
  | .TouchMoved => "TouchMoved"
  | .TouchEnded => "TouchEnded"
  | .SensorChanged => "SensorChanged"

/-! ## The `Type` enumeration (lines 251-276) -/

/-- Enumeration of the different types of events (`enum class Type`). -/
inductive Type_ where
  | Empty
  | Closed
  | Resized
  | LostFocus
  | GainedFocus
  | TextEntered
  | KeyPressed
  | KeyReleased
  | MouseWheelScrolled
  | MouseButtonPressed
  | MouseButtonReleased
  | MouseMoved
  | MouseEntered
  | MouseLeft
  | JoystickButtonPressed
  | JoystickButtonReleased
  | JoystickMoved
  | JoystickConnected
  | JoystickDisconnected
  | TouchBegan
  | TouchMoved
  | TouchEnded
  | SensorChanged
  deriving DecidableEq, Repr

/-- The enumerators of `Type`, in declaration order. -/
def Type_.enumerators : List Type_ :=
  [.Empty, .Closed, .Resized, .LostFocus, .GainedFocus, .TextEntered, .KeyPressed, .KeyReleased, .MouseWheelScrolled, .MouseButtonPressed, .MouseButtonReleased, .MouseMoved, .MouseEntered, .MouseLeft, .JoystickButtonPressed, .JoystickButtonReleased, .JoystickMoved, .JoystickConnected, .JoystickDisconnected, .TouchBegan, .TouchMoved, .TouchEnded, .SensorChanged]

/-- The name of an enumerator, as written in the enumeration. -/
def Type_.name : Type_ → String
  | .Empty => "Empty"
  | .Closed => "Closed"
  | .Resized => "Resized"
  | .LostFocus => "LostFocus"
  | .GainedFocus => "GainedFocus"
  | .TextEntered => "TextEntered"
  | .KeyPressed => "KeyPressed"
  | .KeyReleased => "KeyReleased"
  | .MouseWheelScrolled => "MouseWheelScrolled"
  | .MouseButtonPressed => "MouseButtonPressed"
  | .MouseButtonReleased => "MouseButtonReleased"
  | .MouseMoved => "MouseMoved"
  | .MouseEntered => "MouseEntered"
  | .MouseLeft => "MouseLeft"
  | .JoystickButtonPressed => "JoystickButtonPressed"
  | .JoystickButtonReleased => "JoystickButtonReleased"
  | .JoystickMoved => "JoystickMoved"
  | .JoystickConnected => "JoystickConnected"
  | .JoystickDisconnected => "JoystickDisconnected"
  | .TouchBegan => "TouchBegan"
  | .TouchMoved => "TouchMoved"
  | .TouchEnded => "TouchEnded"
  | .SensorChanged => "SensorChanged"

/-! ## The variant storage (lines 279-311) -/

/-- The storage `std::variant<Empty, Closed, ..., SensorChanged>`: a value holds
exactly one alternative together with a record of that alternative. -/
inductive VariantType where
  | Empty (r : Event.Empty)
  | Closed (r : Event.Closed)
  | Resized (r : Event.Resized)
  | LostFocus (r : Event.LostFocus)
  | GainedFocus (r : Event.GainedFocus)
  | TextEntered (r : Event.TextEntered)
  | KeyPressed (r : Event.KeyPressed)
  | KeyReleased (r : Event.KeyReleased)
  | MouseWheelScrolled (r : Event.MouseWheelScrolled)
  | MouseButtonPressed (r : Event.MouseButtonPressed)
  | MouseButtonReleased (r : Event.MouseButtonReleased)
  | MouseMoved (r : Event.MouseMoved)
  | MouseEntered (r : Event.MouseEntered)
  | MouseLeft (r : Event.MouseLeft)
  | JoystickButtonPressed (r : Event.JoystickButtonPressed)
  | JoystickButtonReleased (r : Event.JoystickButtonReleased)
  | JoystickMoved (r : Event.JoystickMoved)
  | JoystickConnected (r : Event.JoystickConnected)
  | JoystickDisconnected (r : Event.JoystickDisconnected)
  | TouchBegan (r : Event.TouchBegan)
  | TouchMoved (r : Event.TouchMoved)
  | TouchEnded (r : Event.TouchEnded)
  | SensorChanged (r : Event.SensorChanged)
  deriving DecidableEq, Repr

/-- The template arguments of `VariantType`, in the order they are written. -/
def alternatives : List StructId :=
  [.Empty, .Closed, .Resized, .LostFocus, .GainedFocus, .TextEntered, .KeyPressed, .KeyReleased, .MouseWheelScrolled, .MouseButtonPressed, .MouseButtonReleased, .MouseMoved, .MouseEntered, .MouseLeft, .JoystickButtonPressed, .JoystickButtonReleased, .JoystickMoved, .JoystickConnected, .JoystickDisconnected, .TouchBegan, .TouchMoved, .TouchEnded, .SensorChanged]

/-- The fold `(std::is_same_v<T, Ts> || ...)` over the parameter pack `Ts`. -/
def isInParameterPack (T : StructId) (Ts : List StructId) : Bool :=
  Ts.foldr (fun U acc => decide (T = U) || acc) false

/-- The constant `isEventType<T> = isInParameterPack<T>(VariantType())`. -/
def isEventType (T : StructId) : Bool :=
  isInParameterPack T alternatives

/-- A template argument the accessors accept: the `static_assert` in the `else`
branch of each template rejects every `T` with `isEventType<T>` false. -/
abbrev EventSubtype : Type :=
  { T : StructId // isEventType T = true }

/-- The alternative a variant value currently holds. -/
def VariantType.held : VariantType → StructId
  | .Empty _ => .Empty
  | .Closed _ => .Closed
  | .Resized _ => .Resized
  | .LostFocus _ => .LostFocus
  | .GainedFocus _ => .GainedFocus
  | .TextEntered _ => .TextEntered
  | .KeyPressed _ => .KeyPressed
  | .KeyReleased _ => .KeyReleased
  | .MouseWheelScrolled _ => .MouseWheelScrolled
  | .MouseButtonPressed _ => .MouseButtonPressed
  | .MouseButtonReleased _ => .MouseButtonReleased
  | .MouseMoved _ => .MouseMoved
  | .MouseEntered _ => .MouseEntered
  | .MouseLeft _ => .MouseLeft
  | .JoystickButtonPressed _ => .JoystickButtonPressed
  | .JoystickButtonReleased _ => .JoystickButtonReleased
  | .JoystickMoved _ => .JoystickMoved
  | .JoystickConnected _ => .JoystickConnected
  | .JoystickDisconnected _ => .JoystickDisconnected
  | .TouchBegan _ => .TouchBegan
  | .TouchMoved _ => .TouchMoved
  | .TouchEnded _ => .TouchEnded
  | .SensorChanged _ => .SensorChanged

/-- The record stored in a variant value. -/
def VariantType.value : (v : VariantType) → v.held.Record
  | .Empty r => r
  | .Closed r => r
  | .Resized r => r
  | .LostFocus r => r
  | .GainedFocus r => r
  | .TextEntered r => r
  | .KeyPressed r => r
  | .KeyReleased r => r
  | .MouseWheelScrolled r => r
  | .MouseButtonPressed r => r
  | .MouseButtonReleased r => r
  | .MouseMoved r => r
  | .MouseEntered r => r
  | .MouseLeft r => r
  | .JoystickButtonPressed r => r
  | .JoystickButtonReleased r => r
  | .JoystickMoved r => r
  | .JoystickConnected r => r
  | .JoystickDisconnected r => r
  | .TouchBegan r => r
  | .TouchMoved r => r
  | .TouchEnded r => r
  | .SensorChanged r => r

/-- Member `std::variant::index()`: the zero-based index of the held alternative. -/
def VariantType.index : VariantType → Nat
  | .Empty _ => 0
  | .Closed _ => 1
  | .Resized _ => 2
  | .LostFocus _ => 3
  | .GainedFocus _ => 4
  | .TextEntered _ => 5
  | .KeyPressed _ => 6
  | .KeyReleased _ => 7
  | .MouseWheelScrolled _ => 8
  | .MouseButtonPressed _ => 9
  | .MouseButtonReleased _ => 10
  | .MouseMoved _ => 11
  | .MouseEntered _ => 12
  | .MouseLeft _ => 13
  | .JoystickButtonPressed _ => 14
  | .JoystickButtonReleased _ => 15
  | .JoystickMoved _ => 16
  | .JoystickConnected _ => 17
  | .JoystickDisconnected _ => 18
  | .TouchBegan _ => 19
  | .TouchMoved _ => 20
  | .TouchEnded _ => 21
  | .SensorChanged _ => 22

/-- The converting assignment `m_data = t` for `t` of alternative type `T`:
overload resolution selects the alternative of exactly that type and stores a
copy of `t`. -/
def VariantType.assign : (T : EventSubtype) → T.val.Record → VariantType
  | ⟨.Empty, _⟩, t => .Empty t
  | ⟨.Closed, _⟩, t => .Closed t
  | ⟨.Resized, _⟩, t => .Resized t
  | ⟨.LostFocus, _⟩, t => .LostFocus t
  | ⟨.GainedFocus, _⟩, t => .GainedFocus t
  | ⟨.TextEntered, _⟩, t => .TextEntered t
  | ⟨.KeyPressed, _⟩, t => .KeyPressed t
  | ⟨.KeyReleased, _⟩, t => .KeyReleased t
  | ⟨.MouseWheelScrolled, _⟩, t => .MouseWheelScrolled t
  | ⟨.MouseButtonPressed, _⟩, t => .MouseButtonPressed t
  | ⟨.MouseButtonReleased, _⟩, t => .MouseButtonReleased t
  | ⟨.MouseMoved, _⟩, t => .MouseMoved t
  | ⟨.MouseEntered, _⟩, t => .MouseEntered t
  | ⟨.MouseLeft, _⟩, t => .MouseLeft t
  | ⟨.JoystickButtonPressed, _⟩, t => .JoystickButtonPressed t
  | ⟨.JoystickButtonReleased, _⟩, t => .JoystickButtonReleased t
  | ⟨.JoystickMoved, _⟩, t => .JoystickMoved t
  | ⟨.JoystickConnected, _⟩, t => .JoystickConnected t
  | ⟨.JoystickDisconnected, _⟩, t => .JoystickDisconnected t
  | ⟨.TouchBegan, _⟩, t => .TouchBegan t
  | ⟨.TouchMoved, _⟩, t => .TouchMoved t
  | ⟨.TouchEnded, _⟩, t => .TouchEnded t
  | ⟨.SensorChanged, _⟩, t => .SensorChanged t
  | ⟨.KeyChanged, h⟩, _ => absurd h (by decide)
  | ⟨.MouseButtonChanged, h⟩, _ => absurd h (by decide)
  | ⟨.JoystickButtonChanged, h⟩, _ => absurd h (by decide)
  | ⟨.JoystickChanged, h⟩, _ => absurd h (by decide)
  | ⟨.TouchChanged, h⟩, _ => absurd h (by decide)

/-! ## The standard-library operations on the storage

Semantics of the `<variant>` operations the accessors call, as the C++ standard
specifies them, instantiated at `VariantType`. -/

/-- The exception `std::bad_variant_access`. -/
inductive bad_variant_access where
  | mk
  deriving DecidableEq, Repr

/-- Function `std::holds_alternative<T>(v)`: true iff `v` holds the alternative `T`. -/
def holds_alternative (T : StructId) (v : VariantType) : Bool :=
  decide (v.held = T)

/-- Function `std::get<T>(v)`: the stored record if `v` holds a `T`, otherwise
`std::bad_variant_access` is thrown. -/
def get_variant (T : StructId) (v : VariantType) : Except bad_variant_access T.Record :=
  if h : v.held = T then Except.ok (h ▸ v.value) else Except.error bad_variant_access.mk

/-- Function `std::get_if<T>(&v)`: the address of the stored record if `v` holds
a `T`, otherwise `nullptr` (`none`). -/
def get_if (T : StructId) (v : VariantType) : Option T.Record :=
  if h : v.held = T then some (h ▸ v.value) else none

end Event

/-! ## The class `sf::Event` (lines 313-414) -/

/-- The class `sf::Event`; its only data member is `m_data`. -/
structure Event where
  m_data : Event.VariantType
  deriving DecidableEq, Repr

namespace Event

/-- The default constructor `Event() = default`: `m_data` is default-initialised,
and a default-initialised `std::variant` holds a value-initialised first
alternative. -/
def mkDefault : Event :=
  { m_data := VariantType.Empty {} }

/-- The constructor `template <typename T> Event(const T& t)`: `m_data = t`. -/
def mkFrom (T : EventSubtype) (t : T.val.Record) : Event :=
  { m_data := VariantType.assign T t }

/-- The accessor `template <typename T> bool is() const`. -/
def is (e : Event) (T : EventSubtype) : Bool :=
  holds_alternative T.val e.m_data

/-- The accessor `template <typename T> const T& get() const`. -/
def get (e : Event) (T : EventSubtype) : Except bad_variant_access T.val.Record :=
  get_variant T.val e.m_data

/-- The accessor `template <typename T> const T* getIf() const`. -/
def getIf (e : Event) (T : EventSubtype) : Option T.val.Record :=
  get_if T.val e.m_data

/-- Modelled from the spec: the body of `Event::getType` is not part of this
excerpt (line 337 only declares it). The spec: it returns the discriminant
enumerator identifying which variant is currently held, and each event type
maps 1-to-1 to the structure of the same name. -/
def getType (e : Event) : Type_ :=
  match e.m_data with
  | .Empty _ => .Empty
  | .Closed _ => .Closed
  | .Resized _ => .Resized
  | .LostFocus _ => .LostFocus
  | .GainedFocus _ => .GainedFocus
  | .TextEntered _ => .TextEntered
  | .KeyPressed _ => .KeyPressed
  | .KeyReleased _ => .KeyReleased
  | .MouseWheelScrolled _ => .MouseWheelScrolled
  | .MouseButtonPressed _ => .MouseButtonPressed
  | .MouseButtonReleased _ => .MouseButtonReleased
  | .MouseMoved _ => .MouseMoved
  | .MouseEntered _ => .MouseEntered
  | .MouseLeft _ => .MouseLeft
  | .JoystickButtonPressed _ => .JoystickButtonPressed
  | .JoystickButtonReleased _ => .JoystickButtonReleased
  | .JoystickMoved _ => .JoystickMoved
  | .JoystickConnected _ => .JoystickConnected
  | .JoystickDisconnected _ => .JoystickDisconnected
  | .TouchBegan _ => .TouchBegan
  | .TouchMoved _ => .TouchMoved
  | .TouchEnded _ => .TouchEnded
  | .SensorChanged _ => .SensorChanged

/-- The base struct a record is derived from (`struct KeyPressed : KeyChanged`),
if it has one. -/
def StructId.base : StructId → Option StructId
  | .KeyPressed => some .KeyChanged
  | .KeyReleased => some .KeyChanged
  | .MouseButtonPressed => some .MouseButtonChanged
  | .MouseButtonReleased => some .MouseButtonChanged
  | .JoystickButtonPressed => some .JoystickButtonChanged
  | .JoystickButtonReleased => some .JoystickButtonChanged
  | .JoystickConnected => some .JoystickChanged
  | .JoystickDisconnected => some .JoystickChanged
  | .TouchBegan => some .TouchChanged
  | .TouchMoved => some .TouchChanged
  | .TouchEnded => some .TouchChanged
  | _ => none

/-- The accepted template arguments, enumerated from the parameter pack of
`VariantType`. -/
def EventSubtype.all : List EventSubtype :=
  alternatives.filterMap (fun T => if h : isEventType T = true then some ⟨T, h⟩ else none)

/-! ## Template arguments of any type

The four templates can be named with any type as `T`; the guard
`if constexpr (isEventType<T>) ... else static_assert(...)` decides whether the
instantiation is well-formed. -/

/-- A type used as a template argument: a struct declared in `sf::Event`, or a
type declared anywhere else (`int`, `sf::Event`, `const KeyPressed`, ...),
identified by its spelling. Two arguments are the same type
(`std::is_same_v`) exactly when their codes are equal. -/
inductive TypeArg where
  | ofStruct (T : StructId)
  | outside (name : String)
  deriving DecidableEq, Repr

/-- The fold `(std::is_same_v<T, Ts> || ...)` of `isInParameterPack`, for a
template argument `T` of any type. -/
def TypeArg.isInParameterPack (T : TypeArg) (Ts : List TypeArg) : Bool :=
  Ts.foldr (fun U acc => decide (T = U) || acc) false

/-- The constant `isEventType<T> = isInParameterPack<T>(VariantType())`, for a
template argument `T` of any type. -/
def TypeArg.isEventType (T : TypeArg) : Bool :=
  T.isInParameterPack (alternatives.map TypeArg.ofStruct)

/-- The struct code of a template argument for which `isEventType<T>` holds. -/
def TypeArg.toEventSubtype : (T : TypeArg) → T.isEventType = true → EventSubtype
  | .ofStruct S, h =>
    ⟨S, by cases S <;> first | rfl | exact absurd h (by decide)⟩
  | .outside _, h =>
    absurd h (by simp [TypeArg.isEventType, TypeArg.isInParameterPack, alternatives])

/-- The diagnostic of an ill-formed instantiation: a failed `static_assert` with
its message. -/
inductive CompileError where
  | static_assert (message : String)
  deriving DecidableEq, Repr

/-- The shape shared by the four templates:
`if constexpr (isEventType<T>) body else static_assert(isEventType<T>, "T must be a subtype of sf::Event")`.
The instantiation at `T` is either the body at the struct `T`, or ill-formed. -/
def instantiate (β : EventSubtype → Type) (body : (S : EventSubtype) → β S) (T : TypeArg) :
    Except CompileError (Sigma β) :=
  if h : T.isEventType = true then Except.ok ⟨T.toEventSubtype h, body (T.toEventSubtype h)⟩
  else Except.error (CompileError.static_assert "T must be a subtype of sf::Event")

/-- The template `Event::Event(const T&)` instantiated at any type `T`. -/
def instantiate_mkFrom (T : TypeArg) :
    Except CompileError (Sigma fun S : EventSubtype => S.val.Record → Event) :=
  instantiate (fun S => S.val.Record → Event) (fun S t => mkFrom S t) T

/-- The template `Event::is<T>` instantiated at any type `T`. -/
def instantiate_is (T : TypeArg) :
    Except CompileError (Sigma fun _ : EventSubtype => Event → Bool) :=
  instantiate (fun _ => Event → Bool) (fun S e => e.is S) T

/-- The template `Event::get<T>` instantiated at any type `T`. -/
def instantiate_get (T : TypeArg) :
    Except CompileError
      (Sigma fun S : EventSubtype => Event → Except bad_variant_access S.val.Record) :=
  instantiate (fun S => Event → Except bad_variant_access S.val.Record) (fun S e => e.get S) T

/-- The template `Event::getIf<T>` instantiated at any type `T`. -/
def instantiate_getIf (T : TypeArg) :
    Except CompileError (Sigma fun S : EventSubtype => Event → Option S.val.Record) :=
  instantiate (fun S => Event → Option S.val.Record) (fun S e => e.getIf S) T

/-- The numeric value of an enumerator: `enum class Type` gives no initialisers,
so the enumerators count from 0 in declaration order. -/
def Type_.value : Type_ → Nat
  | .Empty => 0
  | .Closed => 1
  | .Resized => 2
  | .LostFocus => 3
  | .GainedFocus => 4
  | .TextEntered => 5
  | .KeyPressed => 6
  | .KeyReleased => 7
  | .MouseWheelScrolled => 8
  | .MouseButtonPressed => 9
  | .MouseButtonReleased => 10
  | .MouseMoved => 11
  | .MouseEntered => 12
  | .MouseLeft => 13
  | .JoystickButtonPressed => 14
  | .JoystickButtonReleased => 15
  | .JoystickMoved => 16
  | .JoystickConnected => 17
  | .JoystickDisconnected => 18
  | .TouchBegan => 19
  | .TouchMoved => 20
  | .TouchEnded => 21
  | .SensorChanged => 22

/-- The conversion `static_cast<Type>(i)`, read as an enumerator: the enumerator
whose numeric value is `i`, if there is one. -/
def Type_.ofValue (i : Nat) : Option Type_ :=
  Type_.enumerators.find? (fun k => k.value == i)

end Event

/-! ## The sprite exercised by `test/Graphics/Sprite.test.cpp` -/

/-- Modelled from the spec: `IntRect` (SFML/Graphics/Rect.hpp, absent) is the
integer rectangle the sprite tests build from a position and a size. -/
structure IntRect where
  position : Vector2i
  size : Vector2i
  deriving DecidableEq, Repr

/-- Modelled from the spec: `Color` (SFML/Graphics/Color.hpp, absent) is a colour
value; it is carried as one packed integer, the sprite only stores and returns
it. -/
structure Color where
  rgba : Nat
  deriving DecidableEq, Repr

/-- Modelled from the spec: the class `sf::Sprite` (SFML/Graphics/Sprite.hpp and
its implementation) is absent; only its test is present. The spec describes it
as a 2D sprite wrapper whose tests exercise simple value-object getters and
setters, so the model is a value object holding the texture rectangle and the
colour. -/
structure Sprite where
  m_textureRect : IntRect
  m_color : Color
  deriving DecidableEq, Repr

/-- Modelled from the spec: the setter `Sprite::setTextureRect` (absent) of the
value object stores the rectangle. -/
def Sprite.setTextureRect (s : Sprite) (rectangle : IntRect) : Sprite :=
  { s with m_textureRect := rectangle }

/-- Modelled from the spec: the getter `Sprite::getTextureRect` (absent) of the
value object returns the stored rectangle. -/
def Sprite.getTextureRect (s : Sprite) : IntRect :=
  s.m_textureRect

/-- Modelled from the spec: the setter `Sprite::setColor` (absent) of the value
object stores the colour. -/
def Sprite.setColor (s : Sprite) (color : Color) : Sprite :=
  { s with m_color := color }

/-- Modelled from the spec: the getter `Sprite::getColor` (absent) of the value
object returns the stored colour. -/
def Sprite.getColor (s : Sprite) : Color :=
  s.m_color

namespace Event

/-! ## Basic facts about the storage -/

theorem held_assign (T : EventSubtype) (t : T.val.Record) :
    (VariantType.assign T t).held = T.val := by
  obtain ⟨T, hT⟩ := T
  cases T <;> first | rfl | exact absurd hT (by decide)

theorem held_isEventType (v : VariantType) : isEventType v.held = true := by
  cases v <;> rfl

theorem isEventType_iff_mem (T : StructId) : isEventType T = true ↔ T ∈ alternatives := by
  cases T <;> decide

theorem get_variant_assign (T : EventSubtype) (t : T.val.Record) :
    get_variant T.val (VariantType.assign T t) = Except.ok t := by
  obtain ⟨T, hT⟩ := T
  cases T <;> first | rfl | exact absurd hT (by decide)

theorem get_if_assign (T : EventSubtype) (t : T.val.Record) :
    get_if T.val (VariantType.assign T t) = some t := by
  obtain ⟨T, hT⟩ := T
  cases T <;> first | rfl | exact absurd hT (by decide)

/-- Re-assigning the stored record to its own alternative rebuilds the storage. -/
theorem assign_held_value (v : VariantType) (h : isEventType v.held = true) :
    VariantType.assign ⟨v.held, h⟩ v.value = v := by
  cases v <;> rfl

theorem is_iff_held (e : Event) (T : EventSubtype) :
    e.is T = true ↔ e.m_data.held = T.val := by
  simp [Event.is, holds_alternative]

theorem is_eq_false_iff_held (e : Event) (T : EventSubtype) :
    e.is T = false ↔ e.m_data.held ≠ T.val := by
  simp [Event.is, holds_alternative]

/-- A successful `std::get<T>` returns the stored record of a storage holding `T`. -/
theorem get_variant_ok (v : VariantType) (T : EventSubtype) (r : T.val.Record)
    (h : get_variant T.val v = Except.ok r) : v = VariantType.assign T r := by
  obtain ⟨T, hT⟩ := T
  unfold get_variant at h
  split at h
  · next hh =>
    simp only at hh
    subst hh
    simp only [Except.ok.injEq] at h
    subst h
    exact (assign_held_value v hT).symm
  · cases h

/-- A non-null `std::get_if<T>` points to the stored record of a storage holding `T`. -/
theorem get_if_some (v : VariantType) (T : EventSubtype) (r : T.val.Record)
    (h : get_if T.val v = some r) : v = VariantType.assign T r := by
  obtain ⟨T, hT⟩ := T
  unfold get_if at h
  split at h
  · next hh =>
    simp only at hh
    subst hh
    simp only [Option.some.injEq] at h
    subst h
    exact (assign_held_value v hT).symm
  · cases h

theorem get_variant_of_ne (v : VariantType) (T : StructId) (h : v.held ≠ T) :
    get_variant T v = Except.error bad_variant_access.mk := by
  simp [get_variant, h]

theorem get_if_of_ne (v : VariantType) (T : StructId) (h : v.held ≠ T) :
    get_if T v = none := by
  simp [get_if, h]

set_option maxHeartbeats 1000000 in
theorem Type_.enumerator_name_inj (a b : Type_) (h : a.name = b.name) : a = b := by
  cases a <;> cases b <;> first | rfl | (exact absurd h (by decide))

set_option maxHeartbeats 1000000 in
theorem StructId.struct_name_inj (a b : StructId) (h : a.name = b.name) : a = b := by
  cases a <;> cases b <;> first | rfl | (exact absurd h (by decide))

theorem getType_name (e : Event) : e.getType.name = e.m_data.held.name := by
  obtain ⟨v⟩ := e
  cases v <;> rfl

theorem exists_struct_of_enumerator (k : Type_) :
    ∃ T ∈ alternatives, T.name = k.name := by
  cases k <;> decide

theorem exists_enumerator_of_struct (T : StructId) (hT : isEventType T = true) :
    ∃ k ∈ Type_.enumerators, k.name = T.name := by
  cases T <;> first | decide | exact absurd hT (by decide)

theorem mem_all (T : EventSubtype) : T ∈ EventSubtype.all := by
  obtain ⟨T, hT⟩ := T
  simp only [EventSubtype.all, List.mem_filterMap]
  exact ⟨T, (isEventType_iff_mem T).1 hT, by simp [hT]⟩

/-! ## Construction and inspection -/

/-- C1: for every permitted record type `T` and every value `v` of `T`, the event
built by `Event(v)` satisfies `is<T>() == true`, and `is<U>() == false` for every
other permitted record type `U`. -/
theorem is_mkFrom (T : EventSubtype) (v : T.val.Record) :
    (mkFrom T v).is T = true ∧
    ∀ U : EventSubtype, U ≠ T → (mkFrom T v).is U = false := by
  refine ⟨(is_iff_held _ _).2 (held_assign T v), fun U hU => ?_⟩
  refine (is_eq_false_iff_held _ _).2 fun h => hU (Subtype.ext ?_)
  exact h.symm.trans (held_assign T v)

theorem is_mkFrom_witness :
    (⟨.Closed, rfl⟩ : EventSubtype) ≠ ⟨.Resized, rfl⟩ ∧
    (mkFrom ⟨.Resized, rfl⟩ ⟨⟨800, 600⟩⟩).is ⟨.Resized, rfl⟩ = true ∧
    (mkFrom ⟨.Resized, rfl⟩ ⟨⟨800, 600⟩⟩).is ⟨.Closed, rfl⟩ = false :=
  ⟨by decide, (is_mkFrom ⟨.Resized, rfl⟩ ⟨⟨800, 600⟩⟩).1,
    (is_mkFrom ⟨.Resized, rfl⟩ ⟨⟨800, 600⟩⟩).2 ⟨.Closed, rfl⟩ (by decide)⟩

/-- C2: round trip. For every permitted record type `T` and every value `v` of
`T`, on the event `Event(v)` the accessor `get<T>()` succeeds and returns `v`,
`getIf<T>()` returns a present result equal to `v`, and `getIf<U>()` returns the
absent result for every other permitted `U`. -/
theorem get_getIf_mkFrom (T : EventSubtype) (v : T.val.Record) :
    (mkFrom T v).get T = Except.ok v ∧
    (mkFrom T v).getIf T = some v ∧
    ∀ U : EventSubtype, U ≠ T → (mkFrom T v).getIf U = none := by
  refine ⟨get_variant_assign T v, get_if_assign T v, fun U hU => ?_⟩
  refine get_if_of_ne _ _ fun h => hU (Subtype.ext ?_)
  exact h.symm.trans (held_assign T v)

theorem get_getIf_mkFrom_witness :
    (⟨.Closed, rfl⟩ : EventSubtype) ≠ ⟨.Resized, rfl⟩ ∧
    (mkFrom ⟨.Resized, rfl⟩ ⟨⟨800, 600⟩⟩).get ⟨.Resized, rfl⟩ = Except.ok ⟨⟨800, 600⟩⟩ ∧
    ((mkFrom ⟨.Resized, rfl⟩ ⟨⟨800, 600⟩⟩).getIf ⟨.Resized, rfl⟩).map (fun r => r.size)
      = some ⟨800, 600⟩ ∧
    (mkFrom ⟨.Resized, rfl⟩ ⟨⟨800, 600⟩⟩).getIf ⟨.Closed, rfl⟩ = none :=
  ⟨by decide, (get_getIf_mkFrom ⟨.Resized, rfl⟩ ⟨⟨800, 600⟩⟩).1,
    by rw [(get_getIf_mkFrom ⟨.Resized, rfl⟩ ⟨⟨800, 600⟩⟩).2.1]; rfl,
    (get_getIf_mkFrom ⟨.Resized, rfl⟩ ⟨⟨800, 600⟩⟩).2.2 ⟨.Closed, rfl⟩ (by decide)⟩

/-- C3: for every permitted record type `T` and every value `v` of `T`,
`getType()` on `Event(v)` returns the enumerator that has the same name as `T`
(and it is the only enumerator of that name), and two different permitted
record types never yield the same enumerator. -/
theorem getType_mkFrom (T : EventSubtype) (v : T.val.Record) :
    (mkFrom T v).getType.name = T.val.name ∧
    (∀ k : Type_, k.name = T.val.name → (mkFrom T v).getType = k) ∧
    ∀ (U : EventSubtype) (w : U.val.Record),
      (mkFrom U w).getType = (mkFrom T v).getType → U = T := by
  have hname : ∀ (S : EventSubtype) (s : S.val.Record),
      (mkFrom S s).getType.name = S.val.name := fun S s => by
    rw [getType_name]
    exact congrArg StructId.name (held_assign S s)
  refine ⟨hname T v, fun k hk => ?_, fun U w h => ?_⟩
  · exact Type_.enumerator_name_inj _ _ ((hname T v).trans hk.symm)
  · refine Subtype.ext (StructId.struct_name_inj _ _ ?_)
    rw [← hname U w, ← hname T v, h]

theorem getType_mkFrom_witness :
    Type_.Resized.name = StructId.Resized.name ∧
    (mkFrom ⟨.Resized, rfl⟩ ⟨⟨800, 600⟩⟩).getType = Type_.Resized :=
  ⟨rfl, (getType_mkFrom ⟨.Resized, rfl⟩ ⟨⟨800, 600⟩⟩).2.1 Type_.Resized rfl⟩

/-- C4: the default-constructed event holds the `Empty` variant: `getType()` is
`Type::Empty`, `is<Empty>()` is true, and `is<U>()` is false for every other
permitted record type `U`. -/
theorem mkDefault_holds_Empty :
    mkDefault.getType = Type_.Empty ∧
    mkDefault.is ⟨.Empty, rfl⟩ = true ∧
    ∀ U : EventSubtype, U ≠ ⟨.Empty, rfl⟩ → mkDefault.is U = false := by
  refine ⟨rfl, rfl, fun U hU => ?_⟩
  refine (is_eq_false_iff_held _ _).2 fun h => hU (Subtype.ext ?_)
  exact h.symm

theorem mkDefault_holds_Empty_witness :
    (⟨.Closed, rfl⟩ : EventSubtype) ≠ ⟨.Empty, rfl⟩ ∧
    mkDefault.is ⟨.Closed, rfl⟩ = false :=
  ⟨by decide, mkDefault_holds_Empty.2.2 ⟨.Closed, rfl⟩ (by decide)⟩

/-- C5: for every event `e` and every permitted record type `T`, `get<T>()` fails
with `std::bad_variant_access` if and only if the record type held by `e` is not
`T`; a record it returns is the record stored in `e`, which then holds a `T`. -/
theorem get_error_iff (e : Event) (T : EventSubtype) :
    (e.get T = Except.error bad_variant_access.mk ↔ e.m_data.held ≠ T.val) ∧
    ∀ r : T.val.Record, e.get T = Except.ok r → e.m_data.held = T.val ∧ e = mkFrom T r := by
  have hok : ∀ r : T.val.Record, e.get T = Except.ok r → e = mkFrom T r := fun r hr => by
    obtain ⟨v⟩ := e
    exact congrArg Event.mk (get_variant_ok v T r hr)
  refine ⟨⟨fun h hheld => ?_, fun h => get_variant_of_ne _ _ h⟩, fun r hr => ?_⟩
  · simp [Event.get, get_variant, hheld] at h
  · refine ⟨?_, hok r hr⟩
    rw [hok r hr]
    exact held_assign T r

theorem get_error_iff_witness :
    (mkFrom ⟨.Resized, rfl⟩ ⟨⟨800, 600⟩⟩).m_data.held ≠ StructId.Closed ∧
    (mkFrom ⟨.Resized, rfl⟩ ⟨⟨800, 600⟩⟩).get ⟨.Closed, rfl⟩
      = Except.error bad_variant_access.mk :=
  ⟨by decide, (get_error_iff (mkFrom ⟨.Resized, rfl⟩ ⟨⟨800, 600⟩⟩) ⟨.Closed, rfl⟩).1.2
    (by decide)⟩

/-- C6: for every event `e` and every permitted record type `T`, `getIf<T>()` is
total: it returns a present result, the record stored in `e`, exactly when `e`
holds a `T`, and the absent result otherwise. -/
theorem getIf_present_iff (e : Event) (T : EventSubtype) :
    ((e.getIf T).isSome = true ↔ e.m_data.held = T.val) ∧
    (∀ r : T.val.Record, e.getIf T = some r → e = mkFrom T r) ∧
    (e.getIf T = none ↔ e.m_data.held ≠ T.val) := by
  have hnone : e.getIf T = none ↔ e.m_data.held ≠ T.val := by
    simp [Event.getIf, get_if]
  refine ⟨?_, fun r hr => ?_, hnone⟩
  · rw [← not_iff_not, ← ne_eq _ T.val, ← hnone]
    simp
  · obtain ⟨v⟩ := e
    exact congrArg Event.mk (get_if_some v T r hr)

theorem getIf_present_iff_witness :
    (mkFrom ⟨.Resized, rfl⟩ ⟨⟨800, 600⟩⟩).m_data.held ≠ StructId.Closed ∧
    (mkFrom ⟨.Resized, rfl⟩ ⟨⟨800, 600⟩⟩).getIf ⟨.Closed, rfl⟩ = none ∧
    (mkFrom ⟨.Resized, rfl⟩ ⟨⟨800, 600⟩⟩).m_data.held = StructId.Resized ∧
    ((mkFrom ⟨.Resized, rfl⟩ ⟨⟨800, 600⟩⟩).getIf ⟨.Resized, rfl⟩).isSome = true :=
  ⟨by decide,
    (getIf_present_iff (mkFrom ⟨.Resized, rfl⟩ ⟨⟨800, 600⟩⟩) ⟨.Closed, rfl⟩).2.2.2 (by decide),
    rfl,
    (getIf_present_iff (mkFrom ⟨.Resized, rfl⟩ ⟨⟨800, 600⟩⟩) ⟨.Resized, rfl⟩).1.2 rfl⟩

/-- C7: variants with identical fields but different kind tags remain
distinguishable. For every choice `f` of the shared key fields, `Event(KeyPressed{f})`
has `is<KeyPressed>()` true, `get<KeyPressed>().code == f.code` and
`is<KeyReleased>()` false; and for every two different records `A`, `B` derived
from one shared base (the eleven records listed) and every value `a` of `A`,
`Event(a)` is an `A`, returns `a`, and is not a `B`. -/
theorem shared_base_distinguishable :
    (∀ f : KeyChanged,
      (mkFrom ⟨.KeyPressed, rfl⟩ ⟨f⟩).is ⟨.KeyPressed, rfl⟩ = true ∧
      (∃ r : KeyPressed,
        (mkFrom ⟨.KeyPressed, rfl⟩ ⟨f⟩).get ⟨.KeyPressed, rfl⟩ = Except.ok r ∧
        r.code = f.code) ∧
      (mkFrom ⟨.KeyPressed, rfl⟩ ⟨f⟩).is ⟨.KeyReleased, rfl⟩ = false) ∧
    alternatives.filter (fun T => T.base.isSome)
      = [.KeyPressed, .KeyReleased, .MouseButtonPressed, .MouseButtonReleased,
         .JoystickButtonPressed, .JoystickButtonReleased, .JoystickConnected,
         .JoystickDisconnected, .TouchBegan, .TouchMoved, .TouchEnded] ∧
    ∀ A B : EventSubtype, A.val.base.isSome = true → A.val.base = B.val.base → B ≠ A →
      ∀ a : A.val.Record,
        (mkFrom A a).is A = true ∧ (mkFrom A a).get A = Except.ok a ∧
        (mkFrom A a).is B = false := by
  refine ⟨fun f => ⟨rfl, ⟨⟨f⟩, rfl, rfl⟩, rfl⟩, rfl, fun A B _ _ hne a => ?_⟩
  refine ⟨(is_iff_held _ _).2 (held_assign A a), get_variant_assign A a, ?_⟩
  refine (is_eq_false_iff_held _ _).2 fun h => hne (Subtype.ext ?_)
  exact h.symm.trans (held_assign A a)

theorem shared_base_distinguishable_witness :
    StructId.TouchBegan.base.isSome = true ∧
    StructId.TouchBegan.base = StructId.TouchEnded.base ∧
    (⟨.TouchEnded, rfl⟩ : EventSubtype) ≠ ⟨.TouchBegan, rfl⟩ ∧
    (mkFrom ⟨.TouchBegan, rfl⟩ ⟨⟨0, ⟨1, 2⟩⟩⟩).is ⟨.TouchBegan, rfl⟩ = true ∧
    (mkFrom ⟨.TouchBegan, rfl⟩ ⟨⟨0, ⟨1, 2⟩⟩⟩).get ⟨.TouchBegan, rfl⟩
      = Except.ok ⟨⟨0, ⟨1, 2⟩⟩⟩ ∧
    (mkFrom ⟨.TouchBegan, rfl⟩ ⟨⟨0, ⟨1, 2⟩⟩⟩).is ⟨.TouchEnded, rfl⟩ = false :=
  ⟨rfl, rfl, by decide,
    shared_base_distinguishable.2.2 ⟨.TouchBegan, rfl⟩ ⟨.TouchEnded, rfl⟩ rfl rfl (by decide)
      ⟨⟨0, ⟨1, 2⟩⟩⟩⟩

/-- C8: for every event `e` and every permitted record type `T` whose same-named
enumerator is `k`: `getType() == k` if and only if `is<T>()` is true, and in that
case `get<T>()` succeeds with the record stored in `e`. -/
theorem getType_eq_iff_is (e : Event) (T : EventSubtype) (k : Type_)
    (hk : k.name = T.val.name) :
    (e.getType = k ↔ e.is T = true) ∧
    (e.is T = true → ∃ r : T.val.Record, e.get T = Except.ok r ∧ e = mkFrom T r) := by
  constructor
  · rw [is_iff_held]
    constructor
    · intro h
      refine StructId.struct_name_inj _ _ ?_
      rw [← getType_name, h, hk]
    · intro h
      refine Type_.enumerator_name_inj _ _ ?_
      rw [getType_name, h, hk]
  · intro h
    obtain ⟨v⟩ := e
    obtain ⟨T, hT⟩ := T
    have hheld : v.held = T := (is_iff_held ⟨v⟩ ⟨T, hT⟩).1 h
    subst hheld
    exact ⟨v.value, by simp [Event.get, get_variant],
      congrArg Event.mk (assign_held_value v hT).symm⟩

theorem getType_eq_iff_is_witness :
    Type_.Resized.name = StructId.Resized.name ∧
    ((mkFrom ⟨.Resized, rfl⟩ ⟨⟨800, 600⟩⟩).getType = Type_.Resized ↔
      (mkFrom ⟨.Resized, rfl⟩ ⟨⟨800, 600⟩⟩).is ⟨.Resized, rfl⟩ = true) ∧
    ((mkFrom ⟨.Closed, rfl⟩ ⟨⟩).getType = Type_.Resized ↔
      (mkFrom ⟨.Closed, rfl⟩ ⟨⟩).is ⟨.Resized, rfl⟩ = true) :=
  ⟨rfl,
    (getType_eq_iff_is (mkFrom ⟨.Resized, rfl⟩ ⟨⟨800, 600⟩⟩) ⟨.Resized, rfl⟩ Type_.Resized rfl).1,
    (getType_eq_iff_is (mkFrom ⟨.Closed, rfl⟩ ⟨⟩) ⟨.Resized, rfl⟩ Type_.Resized rfl).1⟩

/-- C9: invariant of every event value: exactly one permitted record type `T`
satisfies `is<T>() == true`; among the 23 accepted template arguments the
number of those with `is<T>()` true is one, never zero and never two. -/
theorem exactly_one_is (e : Event) :
    (∃! T : EventSubtype, e.is T = true) ∧
    EventSubtype.all.length = 23 ∧
    (∀ T : EventSubtype, T ∈ EventSubtype.all) ∧
    (EventSubtype.all.filter (fun T => e.is T)).length = 1 := by
  refine ⟨⟨⟨e.m_data.held, held_isEventType _⟩, (is_iff_held _ _).2 rfl, fun U hU => ?_⟩,
    rfl, mem_all, ?_⟩
  · exact Subtype.ext ((is_iff_held _ _).1 hU).symm
  · obtain ⟨v⟩ := e
    cases v <;> rfl

/-- C10: the `Type` enumeration and the alternatives of `VariantType` are in
1:1 correspondence by name: there are exactly 23 enumerators and exactly 23
alternatives, every enumerator has the name of exactly one alternative record
type, and every alternative record type has the name of exactly one
enumerator. -/
theorem type_alternatives_one_to_one :
    Type_.enumerators.length = 23 ∧ Type_.enumerators.Nodup ∧
    (∀ k : Type_, k ∈ Type_.enumerators) ∧
    alternatives.length = 23 ∧ alternatives.Nodup ∧
    (∀ T : StructId, isEventType T = true ↔ T ∈ alternatives) ∧
    (∀ k : Type_, ∃! T : EventSubtype, T.val.name = k.name) ∧
    (∀ T : EventSubtype, ∃! k : Type_, k.name = T.val.name) := by
  refine ⟨rfl, by decide, fun k => by cases k <;> decide, rfl, by decide,
    isEventType_iff_mem, fun k => ?_, fun T => ?_⟩
  · obtain ⟨T, hT, hname⟩ := exists_struct_of_enumerator k
    refine ⟨⟨T, (isEventType_iff_mem T).2 hT⟩, hname, fun U hU => Subtype.ext ?_⟩
    exact StructId.struct_name_inj _ _ (hU.trans hname.symm)
  · obtain ⟨k, _, hname⟩ := exists_enumerator_of_struct T.val T.property
    exact ⟨k, hname, fun j hj => Type_.enumerator_name_inj _ _ (hj.trans hname.symm)⟩

/-! ## The closed set of template arguments -/

theorem record_nonempty (T : StructId) : Nonempty T.Record := by
  cases T <;> exact ⟨by repeat' constructor⟩

theorem isEventType_ofStruct (S : StructId) :
    (TypeArg.ofStruct S).isEventType = isEventType S := by
  cases S <;> rfl

theorem isEventType_outside (name : String) :
    (TypeArg.outside name).isEventType = false := by
  simp [TypeArg.isEventType, TypeArg.isInParameterPack, alternatives]

theorem ofStruct_toEventSubtype (T : TypeArg) (h : T.isEventType = true) :
    TypeArg.ofStruct (T.toEventSubtype h).val = T := by
  cases T with
  | ofStruct S => rfl
  | outside name => exact absurd h (by simp [isEventType_outside])

theorem isEventType_iff_held (S : StructId) :
    isEventType S = true ↔ ∃ v : VariantType, v.held = S := by
  constructor
  · intro hS
    obtain ⟨t⟩ := record_nonempty S
    exact ⟨VariantType.assign ⟨S, hS⟩ t, held_assign ⟨S, hS⟩ t⟩
  · rintro ⟨v, rfl⟩
    exact held_isEventType v

theorem instantiate_ok_iff (β : EventSubtype → Type) (body : (S : EventSubtype) → β S)
    (T : TypeArg) : (∃ i, instantiate β body T = Except.ok i) ↔ T.isEventType = true := by
  unfold instantiate
  split
  · next h => exact ⟨fun _ => h, fun _ => ⟨_, rfl⟩⟩
  · next h => exact ⟨fun ⟨_, hi⟩ => (by cases hi), fun h2 => absurd h2 h⟩

theorem instantiate_of_true (β : EventSubtype → Type) (body : (S : EventSubtype) → β S)
    (T : TypeArg) (h : T.isEventType = true) :
    instantiate β body T = Except.ok ⟨T.toEventSubtype h, body (T.toEventSubtype h)⟩ := by
  unfold instantiate
  rw [dif_pos h]

theorem instantiate_of_false (β : EventSubtype → Type) (body : (S : EventSubtype) → β S)
    (T : TypeArg) (h : T.isEventType = false) :
    instantiate β body T
      = Except.error (CompileError.static_assert "T must be a subtype of sf::Event") := by
  unfold instantiate
  rw [dif_neg (by simp [h])]

/-- C11: construction from a type outside the closed set is rejected. The
membership predicate `isEventType<T>` is true exactly for the 23 alternatives of
`VariantType` (the record types a storage value can hold) and false for every
other type: the five shared base records and every type declared outside
`sf::Event`. The constructor template and the accessors `is<T>`, `get<T>`,
`getIf<T>` instantiate at `T` if and only if `T` is one of the 23 alternatives;
at any other `T` the `static_assert` fails, and at an alternative the instance
is the constructor or accessor for that record. -/
theorem isEventType_iff_alternative :
    (∀ T : TypeArg, T.isEventType = true ↔ ∃ v : VariantType, T = TypeArg.ofStruct v.held) ∧
    (∀ T : TypeArg, T.isEventType = true ↔ T ∈ alternatives.map TypeArg.ofStruct) ∧
    alternatives.length = 23 ∧ alternatives.Nodup ∧
    (∀ S : StructId, (TypeArg.ofStruct S).isEventType = isEventType S) ∧
    (∀ T : TypeArg, T.isEventType = false ↔
      (∃ S ∈ [StructId.KeyChanged, StructId.MouseButtonChanged,
          StructId.JoystickButtonChanged, StructId.JoystickChanged, StructId.TouchChanged],
        T = TypeArg.ofStruct S) ∨
      ∃ name : String, T = TypeArg.outside name) ∧
    (∀ T : TypeArg,
      ((∃ i, instantiate_mkFrom T = Except.ok i) ↔ T.isEventType = true) ∧
      ((∃ i, instantiate_is T = Except.ok i) ↔ T.isEventType = true) ∧
      ((∃ i, instantiate_get T = Except.ok i) ↔ T.isEventType = true) ∧
      ((∃ i, instantiate_getIf T = Except.ok i) ↔ T.isEventType = true)) ∧
    (∀ T : TypeArg, T.isEventType = false →
      instantiate_mkFrom T
        = Except.error (CompileError.static_assert "T must be a subtype of sf::Event") ∧
      instantiate_is T
        = Except.error (CompileError.static_assert "T must be a subtype of sf::Event") ∧
      instantiate_get T
        = Except.error (CompileError.static_assert "T must be a subtype of sf::Event") ∧
      instantiate_getIf T
        = Except.error (CompileError.static_assert "T must be a subtype of sf::Event")) ∧
    (∀ (T : TypeArg) (h : T.isEventType = true),
      TypeArg.ofStruct (T.toEventSubtype h).val = T ∧
      instantiate_mkFrom T
        = Except.ok ⟨T.toEventSubtype h, fun t => mkFrom (T.toEventSubtype h) t⟩ ∧
      instantiate_is T
        = Except.ok ⟨T.toEventSubtype h, fun e => e.is (T.toEventSubtype h)⟩ ∧
      instantiate_get T
        = Except.ok ⟨T.toEventSubtype h, fun e => e.get (T.toEventSubtype h)⟩ ∧
      instantiate_getIf T
        = Except.ok ⟨T.toEventSubtype h, fun e => e.getIf (T.toEventSubtype h)⟩) := by
  refine ⟨fun T => ?_, fun T => ?_, rfl, by decide, isEventType_ofStruct, fun T => ?_,
    fun T => ⟨instantiate_ok_iff _ _ T, instantiate_ok_iff _ _ T, instantiate_ok_iff _ _ T,
      instantiate_ok_iff _ _ T⟩,
    fun T h => ⟨instantiate_of_false _ _ T h, instantiate_of_false _ _ T h,
      instantiate_of_false _ _ T h, instantiate_of_false _ _ T h⟩,
    fun T h => ⟨ofStruct_toEventSubtype T h, instantiate_of_true _ _ T h,
      instantiate_of_true _ _ T h, instantiate_of_true _ _ T h, instantiate_of_true _ _ T h⟩⟩
  · cases T with
    | ofStruct S =>
      rw [isEventType_ofStruct, isEventType_iff_held]
      exact ⟨fun ⟨v, hv⟩ => ⟨v, by rw [hv]⟩, fun ⟨v, hv⟩ => ⟨v, (TypeArg.ofStruct.inj hv).symm⟩⟩
    | outside name =>
      rw [isEventType_outside]
      exact ⟨fun h => (by cases h), fun ⟨_, hv⟩ => (by cases hv)⟩
  · cases T with
    | ofStruct S =>
      rw [isEventType_ofStruct, isEventType_iff_mem]
      constructor
      · exact fun h => List.mem_map.2 ⟨S, h, rfl⟩
      · intro h
        obtain ⟨A, hA, hAS⟩ := List.mem_map.1 h
        exact TypeArg.ofStruct.inj hAS ▸ hA
    | outside name =>
      rw [isEventType_outside]
      refine ⟨fun h => (by cases h), fun h => ?_⟩
      obtain ⟨A, _, hA⟩ := List.mem_map.1 h
      cases hA
  · cases T with
    | ofStruct S =>
      rw [isEventType_ofStruct]
      constructor
      · intro h
        refine Or.inl ⟨S, ?_, rfl⟩
        revert h
        cases S <;> decide
      · rintro (⟨A, hA, hAS⟩ | ⟨name, hname⟩)
        · cases TypeArg.ofStruct.inj hAS
          revert hA
          cases S <;> decide
        · cases hname
    | outside name =>
      exact ⟨fun _ => Or.inr ⟨name, rfl⟩, fun _ => isEventType_outside name⟩

theorem isEventType_iff_alternative_witness :
    (TypeArg.outside "int").isEventType = false ∧
    instantiate_is (TypeArg.outside "int")
      = Except.error (CompileError.static_assert "T must be a subtype of sf::Event") ∧
    (TypeArg.ofStruct StructId.KeyChanged).isEventType = false ∧
    instantiate_get (TypeArg.ofStruct StructId.KeyChanged)
      = Except.error (CompileError.static_assert "T must be a subtype of sf::Event") ∧
    (TypeArg.ofStruct StructId.KeyPressed).isEventType = true ∧
    instantiate_getIf (TypeArg.ofStruct StructId.KeyPressed)
      = Except.ok ⟨⟨StructId.KeyPressed, rfl⟩, fun e => e.getIf ⟨StructId.KeyPressed, rfl⟩⟩ :=
  ⟨rfl, (isEventType_iff_alternative.2.2.2.2.2.2.2.1 (TypeArg.outside "int") rfl).2.1,
    rfl, (isEventType_iff_alternative.2.2.2.2.2.2.2.1
      (TypeArg.ofStruct StructId.KeyChanged) rfl).2.2.1,
    rfl, (isEventType_iff_alternative.2.2.2.2.2.2.2.2
      (TypeArg.ofStruct StructId.KeyPressed) rfl).2.2.2.2⟩

/-! ## Agreement of the accessors -/

/-- C14: the failing and the non-failing accessor agree on every event: for every
event `e` and every permitted record type `T`, `get<T>()` succeeds if and only
if `getIf<T>()` is non-null if and only if `is<T>()` is true, and whenever they
succeed `get<T>()` and `*getIf<T>()` are the same record. -/
theorem get_getIf_is_agree (e : Event) (T : EventSubtype) :
    ((∃ r : T.val.Record, e.get T = Except.ok r) ↔ (e.getIf T).isSome = true) ∧
    ((e.getIf T).isSome = true ↔ e.is T = true) ∧
    (∀ r : T.val.Record, e.get T = Except.ok r ↔ e.getIf T = some r) ∧
    e.getIf T = (e.get T).toOption := by
  have hopt : e.getIf T = (e.get T).toOption := by
    unfold Event.getIf Event.get get_if get_variant
    split <;> rfl
  have hsome : (e.getIf T).isSome = true ↔ e.is T = true := by
    rw [is_iff_held]
    unfold Event.getIf get_if
    split <;> simp_all
  have hrec : ∀ r : T.val.Record, e.get T = Except.ok r ↔ e.getIf T = some r := by
    intro r
    rw [hopt]
    cases e.get T <;> simp [Except.toOption]
  refine ⟨⟨fun ⟨r, hr⟩ => ?_, fun h => ?_⟩, hsome, hrec, hopt⟩
  · rw [(hrec r).1 hr]
    rfl
  · obtain ⟨r, hr⟩ := Option.isSome_iff_exists.1 h
    exact ⟨r, (hrec r).2 hr⟩

/-! ## Alignment of the enumeration with the storage -/

theorem index_lt (v : VariantType) : v.index < 23 := by
  cases v <;> simp [VariantType.index]

/-- The modelled `getType` agrees with reading the index of the storage as a
`Type` value. -/
theorem getType_eq_ofValue_index (e : Event) :
    Type_.ofValue e.m_data.index = some e.getType := by
  obtain ⟨v⟩ := e
  cases v <;> rfl

/-- C15: positional alignment of tag and storage. For every `i` in 0..22 the
`i`-th enumerator of `Type` has numeric value `i` and the same name as the
`i`-th alternative of `VariantType` (`Empty` is 0); so the index of the active
alternative, read as a `Type` value, is the enumerator named after the held
record type. -/
theorem index_enumerator_aligned :
    (∀ i : Nat, i < 23 →
      (Type_.enumerators[i]?).map Type_.value = some i ∧
      (alternatives[i]?).isSome = true ∧
      (Type_.enumerators[i]?).map Type_.name = (alternatives[i]?).map StructId.name) ∧
    Type_.Empty.value = 0 ∧
    (∀ v : VariantType, v.index < 23 ∧ alternatives[v.index]? = some v.held) ∧
    (∀ v : VariantType, ∃ k : Type_,
      Type_.ofValue v.index = some k ∧ k.value = v.index ∧ k.name = v.held.name) := by
  refine ⟨by decide, rfl, fun v => ⟨index_lt v, by cases v <;> rfl⟩, fun v => ?_⟩
  cases v <;> exact ⟨_, rfl, rfl, rfl⟩

theorem index_enumerator_aligned_witness :
    6 < 23 ∧
    (Type_.enumerators[6]?).map Type_.value = some 6 ∧
    (Type_.enumerators[6]?).map Type_.name = some "KeyPressed" ∧
    (alternatives[6]?).map StructId.name = some "KeyPressed" :=
  ⟨by decide, (index_enumerator_aligned.1 6 (by decide)).1,
    by rw [(index_enumerator_aligned.1 6 (by decide)).2.2]; rfl, rfl⟩

end Event

/-! ## The sprite setters and getters -/

/-- C12: sprite setter/getter round trip. For every sprite and every integer
rectangle `r`, after `setTextureRect(r)` the getter `getTextureRect()` returns
`r`; and for every colour `c`, after `setColor(c)` the getter `getColor()`
returns `c`. -/
theorem Sprite.set_get_roundtrip (s : Sprite) (r : IntRect) (c : Color) :
    (s.setTextureRect r).getTextureRect = r ∧
    (s.setColor c).getColor = c ∧
    (s.setTextureRect ⟨⟨1, 2⟩, ⟨3, 4⟩⟩).getTextureRect = ⟨⟨1, 2⟩, ⟨3, 4⟩⟩ :=
  ⟨rfl, rfl, rfl⟩

end sf
